import Mathlib

/-!
Verification of the two Ansible modules of `t0rr3sp3dr0/ansible-collection-nix`
(`plugins/modules/channel.py` and `plugins/modules/env.py`) against their
natural-language specification.

The modules are shallowly embedded: each external process invocation is
recorded as its argv list (plus, for `nix-env`, the environment update passed
to `run_command`), the stdout of the `nix-channel --list` call is a parameter,
and the two temporary-file creations of `env.py` are parameters of type
`String → Except String String` (argument: the bytes written; `.ok` result:
the file name; `.error` result: the text `str(e)` of the raised exception).
All executions are modelled on the path where every external command exits
with status zero; `check_rc=True` failures abort the module and are outside
the claims below except where noted.
-/

namespace AnsibleNix

/-- Characters that Python `str.split()` (with `sep=None`) treats as
whitespace, restricted to the ASCII range that can occur in `nix-channel`
output. -/
def pyIsSpace (c : Char) : Bool :=
  (c == ' ') || (c == '\t') || (c == '\n') || (c == '\x0b') || (c == '\x0c') || (c == '\r')

/-- Split a character list at every occurrence of `sep`, keeping empty
segments (the character-level analogue of Python `str.split(sep)` for a
one-character separator). -/
def splitChar (sep : Char) : List Char → List (List Char)
  | [] => [[]]
  | c :: cs =>
    match splitChar sep cs with
    | [] => [[]]
    | r :: rs => if c == sep then [] :: r :: rs else (c :: r) :: rs

/-- Python `str.splitlines()` as used on the captured stdout of
`nix-channel --list` (`channel.py` line 84), modelled for the `\n` line
terminator: every `\n` ends a line, and a final line terminator does not
produce a trailing empty line. -/
def pySplitlines (s : String) : List String :=
  let parts := splitChar '\n' s.data
  let parts := if parts.getLast? = some [] then parts.dropLast else parts
  parts.map (fun l => String.mk l)

/-- Core of Python `line.split(maxsplit=1)` with `sep=None` (`channel.py`
line 85): skip leading whitespace; if nothing remains there is no field;
otherwise the first field runs to the next whitespace, the whitespace run
after it is skipped, and the (verbatim) remainder is the second field iff it
is non-empty. -/
def pySplit1Core (cs : List Char) : List (List Char) :=
  let cs1 := cs.dropWhile pyIsSpace
  if cs1.isEmpty then []
  else
    let field := cs1.takeWhile (fun c => !pyIsSpace c)
    let rest := (cs1.dropWhile (fun c => !pyIsSpace c)).dropWhile pyIsSpace
    if rest.isEmpty then [field] else [field, rest]

/-- Python `line.split(maxsplit=1)` on a string. -/
def pySplit1 (s : String) : List String :=
  (pySplit1Core s.data).map (fun l => String.mk l)

/-- The parsing part of `NixChannel.run_list` (`channel.py` lines 84-85):
`[tuple(line.split(maxsplit=1)) for line in stdout.splitlines()]`. A tuple is
modelled as the list of its components (its length may be 0, 1 or 2). -/
def run_list_parse (stdout : String) : List (List String) :=
  (pySplitlines stdout).map pySplit1

/-- One external process invocation, recorded as its argv list. -/
abbrev Invocation := List String

/-- The message of the `ValueError` Python raises when unpacking a tuple of
`n < 2` elements into the two targets `name, _` (`channel.py` line 96). -/
def unpackError (n : Nat) : String :=
  "ValueError: not enough values to unpack (expected 2, got " ++ toString n ++ ")"

/-- Unpacking `name, _ = t` for a tuple `t`: succeeds exactly on 2-tuples,
raising `ValueError` otherwise (`channel.py` line 96). -/
def destructure2 (t : List String) : Except String (String × String) :=
  match t with
  | [a, b] => .ok (a, b)
  | [_] => .error (unpackError 1)
  | [] => .error (unpackError 0)
  | _ => .error "ValueError: too many values to unpack (expected 2)"

/-- The `for name, _ in channels` loop of `NixChannel.run_remove`
(`channel.py` lines 96-102): one `--remove <name>` invocation per tuple, in
order, aborting with the unpacking `ValueError` on the first tuple that is
not a pair. -/
def removeLoop (bin : String) : List (List String) → Except String (List Invocation)
  | [] => .ok []
  | t :: ts =>
    match destructure2 t with
    | .error e => .error e
    | .ok p =>
      match removeLoop bin ts with
      | .error e => .error e
      | .ok invs => .ok ([bin, "--remove", p.1] :: invs)

/-- `NixChannel.run_remove` (`channel.py` lines 87-102) on an already-listed
channel set: in check mode it returns before touching `changed` or running
anything; otherwise it sets `changed` and performs the remove loop. The
returned Bool is this step's contribution to `result['changed']`. -/
def run_remove (bin : String) (check_mode : Bool) (channels : List (List String)) :
    Except String (Bool × List Invocation) :=
  if check_mode then .ok (false, [])
  else
    match removeLoop bin channels with
    | .error e => .error e
    | .ok invs => .ok (true, invs)

/-- `NixChannel.run_add` (`channel.py` lines 104-119) on the declared
mapping's `(name, url)` items: in check mode it returns before touching
`changed` or running anything; otherwise it sets `changed` and issues
`--add <url> <name>` per item, in order. -/
def run_add (bin : String) (check_mode : Bool) (channels : List (String × String)) :
    Bool × List Invocation :=
  if check_mode then (false, [])
  else (true, channels.foldl (fun acc p => acc ++ [[bin, "--add", p.2, p.1]]) [])

/-- `NixChannel.run_update` (`channel.py` lines 121-132): in check mode it
returns before touching `changed` or running anything; otherwise it sets
`changed` and issues a single `--update` invocation. -/
def run_update (bin : String) (check_mode : Bool) : Bool × List Invocation :=
  if check_mode then (false, []) else (true, [[bin, "--update"]])

/-- Outcome of a module run: the reported result (`.ok changed` for
`exit_json`, `.error msg` for an abort) and the external invocations issued
on the successful path. -/
structure ChanOutcome where
  result : Except String Bool
  trace : List Invocation

/-- `NixChannel.run` (`channel.py` lines 134-139) after the binary has been
located: `run_remove` (which first performs the `--list` invocation and
parses its stdout, `channel.py` lines 88-89 and 76-85), then `run_add` on the
declared mapping, then `run_update`; `result['changed']` starts `False` and
each non-skipped mutating step assigns `True`. On an unpacking `ValueError`
the module dies with only the `--list` invocation issued. -/
def channelRun (bin : String) (check_mode : Bool) (stdout : String)
    (declared : List (String × String)) : ChanOutcome :=
  let observed := run_list_parse stdout
  match run_remove bin check_mode observed with
  | .error e => ⟨.error e, [[bin, "--list"]]⟩
  | .ok (ch1, removeInvs) =>
    let (ch2, addInvs) := run_add bin check_mode declared
    let (ch3, updateInvs) := run_update bin check_mode
    ⟨.ok (ch1 || ch2 || ch3), [[bin, "--list"]] ++ removeInvs ++ addInvs ++ updateInvs⟩

/-! Helper lemmas shared by several theorems. -/

lemma foldl_snoc_eq_map {α β : Type} (f : α → β) (l : List α) (acc : List β) :
    l.foldl (fun a p => a ++ [f p]) acc = acc ++ l.map f := by
  induction l generalizing acc with
  | nil => simp
  | cons x xs ih => simp [ih, List.append_assoc]

lemma removeLoop_ok (bin : String) (channels : List (List String))
    (h : ∀ t ∈ channels, t.length = 2) :
    removeLoop bin channels = .ok (channels.map (fun t => [bin, "--remove"] ++ t.take 1)) := by
  induction channels with
  | nil => rfl
  | cons t ts ih =>
    obtain ⟨a, b, rfl⟩ := List.length_eq_two.mp (h t (List.mem_cons_self t ts))
    have hts : ∀ u ∈ ts, u.length = 2 := fun u hu => h u (List.mem_cons_of_mem _ hu)
    simp [removeLoop, destructure2, ih hts]

lemma channelRun_check (bin stdout : String) (declared : List (String × String)) :
    channelRun bin true stdout declared = ⟨.ok false, [[bin, "--list"]]⟩ := by
  simp [channelRun, run_remove, run_add, run_update]

lemma channelRun_trace_head (bin : String) (check_mode : Bool) (stdout : String)
    (declared : List (String × String)) :
    (channelRun bin check_mode stdout declared).trace.head? = some [bin, "--list"] := by
  unfold channelRun
  cases hrm : run_remove bin check_mode (run_list_parse stdout) with
  | error e => simp [hrm]
  | ok p => simp [hrm]

/-! The claims. -/

/-- C3: in simulation (check) mode, the Channel Reconciler invokes the list
command but none of the remove, add or update commands, and reports
`changed=false`. -/
theorem channel_check_mode_only_list (bin stdout : String)
    (declared : List (String × String)) :
    channelRun bin true stdout declared = ⟨.ok false, [[bin, "--list"]]⟩ :=
  channelRun_check bin stdout declared

/-- C5: outside check mode, the Channel Reconciler's add step issues exactly
one invocation per declared `(name, url)` entry, in the mapping's insertion
order, each of the shape `--add <url> <name>` with that entry's exact name
and URL. -/
theorem channel_add_one_invocation_per_entry (bin : String)
    (channels : List (String × String)) :
    run_add bin false channels =
      (true, channels.map (fun p => [bin, "--add", p.2, p.1])) := by
  simp [run_add, foldl_snoc_eq_map]

lemma removeLoop_err (bin : String) (ts us : List (List String)) (t : List String)
    (h4 : ∀ u ∈ ts, u.length = 2) (ht : t.length = 1) :
    removeLoop bin (ts ++ t :: us) = .error (unpackError 1) := by
  induction ts with
  | nil =>
    obtain ⟨a, rfl⟩ := List.length_eq_one.mp ht
    simp [removeLoop, destructure2]
  | cons u ts ih =>
    obtain ⟨a, b, rfl⟩ := List.length_eq_two.mp (h4 u (List.mem_cons_self u ts))
    have hstep := ih (fun v hv => h4 v (List.mem_cons_of_mem _ hv))
    simp [removeLoop, destructure2, hstep]

/-- C6: outside check mode, the Channel Reconciler runs exactly the steps
list, then one remove-by-name invocation per observed channel (its name being
the first field of its line, regardless of any declared entry), then one add
invocation per declared entry, then a single update invocation, in that
order; and in either mode the first invocation is always the list command
(only remove/add/update are skippable by the simulate flag). -/
theorem channel_run_step_order (bin stdout : String)
    (declared : List (String × String))
    (h : ∀ t ∈ run_list_parse stdout, t.length = 2) :
    channelRun bin false stdout declared =
      ⟨.ok true,
        [[bin, "--list"]]
          ++ (run_list_parse stdout).map (fun t => [bin, "--remove"] ++ t.take 1)
          ++ declared.map (fun p => [bin, "--add", p.2, p.1])
          ++ [[bin, "--update"]]⟩ ∧
    ∀ cm : Bool, (channelRun bin cm stdout declared).trace.head? = some [bin, "--list"] := by
  constructor
  · simp [channelRun, run_remove, removeLoop_ok bin _ h, run_add, run_update,
      foldl_snoc_eq_map]
  · intro cm
    exact channelRun_trace_head bin cm stdout declared

theorem channel_run_step_order_witness :
    run_list_parse "nixpkgs https://nixos.org/channels/nixpkgs-unstable\nfoo bar\n" =
      [["nixpkgs", "https://nixos.org/channels/nixpkgs-unstable"], ["foo", "bar"]] ∧
    channelRun "nix-channel" false
        "nixpkgs https://nixos.org/channels/nixpkgs-unstable\nfoo bar\n"
        [("nixpkgs", "https://nixos.org/channels/nixpkgs-unstable")] =
      ⟨.ok true,
        [["nix-channel", "--list"],
         ["nix-channel", "--remove", "nixpkgs"],
         ["nix-channel", "--remove", "foo"],
         ["nix-channel", "--add", "https://nixos.org/channels/nixpkgs-unstable", "nixpkgs"],
         ["nix-channel", "--update"]]⟩ := by
  refine ⟨by decide, ?_⟩
  exact ((channel_run_step_order "nix-channel"
    "nixpkgs https://nixos.org/channels/nixpkgs-unstable\nfoo bar\n"
    [("nixpkgs", "https://nixos.org/channels/nixpkgs-unstable")] (by decide)).1).trans rfl

/-- C9: outside check mode, every run of the Channel Reconciler that reaches
`exit_json` reports `changed=true`, whatever the declared mapping and the
observed channel set (including both empty), because each of
remove/add/update assigns `changed=True` unconditionally before iterating. -/
theorem channel_nondry_changed_always_true (bin stdout : String)
    (declared : List (String × String)) (b : Bool)
    (h : (channelRun bin false stdout declared).result = .ok b) : b = true := by
  unfold channelRun at h
  cases hrm : removeLoop bin (run_list_parse stdout) with
  | error e => simp [run_remove, hrm] at h
  | ok invs =>
    simp [run_remove, hrm, run_add, run_update] at h
    exact h

theorem channel_nondry_changed_always_true_witness :
    (channelRun "nix-channel" false "" []).result = .ok true ∧ (true : Bool) = true :=
  ⟨by rfl, channel_nondry_changed_always_true "nix-channel" "" [] true (by rfl)⟩

/-- C10: the remove step is only well-defined when every non-empty line of
the list output has a whitespace separator: a line with no whitespace yields
a one-element tuple, and the two-target unpacking `name, _` in the remove
loop then dies with a `ValueError` rather than a clean module failure. -/
theorem remove_unpack_crash_on_missing_separator (bin stdout line : String)
    (declared : List (String × String)) (ts us : List (List String))
    (h2 : line ≠ "") (h3 : line.data.all (fun c => !pyIsSpace c) = true)
    (h4 : ∀ t ∈ ts, t.length = 2)
    (h5 : run_list_parse stdout = ts ++ pySplit1 line :: us) :
    pySplit1 line = [line] ∧
    (channelRun bin false stdout declared).result = .error (unpackError 1) := by
  have hall : ∀ c ∈ line.data, pyIsSpace c = false := by
    intro c hc
    simpa using List.all_eq_true.mp h3 c hc
  have hdata : line.data ≠ [] := fun hnil => h2 (by
    have : line = "" := String.ext (by simpa using hnil)
    exact this)
  have hsplit : pySplit1 line = [line] := by
    obtain ⟨c, cs, hcons⟩ := List.exists_cons_of_ne_nil hdata
    unfold pySplit1 pySplit1Core
    rw [hcons]
    have hc0 : pyIsSpace c = false := hall c (by rw [hcons]; exact List.mem_cons_self c cs)
    have hdw : List.dropWhile pyIsSpace (c :: cs) = c :: cs := by
      simp [List.dropWhile_cons, hc0]
    have htw : List.takeWhile (fun x => !pyIsSpace x) (c :: cs) = c :: cs := by
      rw [List.takeWhile_eq_self_iff]
      intro a ha
      simp [hall a (by rw [hcons]; exact ha)]
    have hdw2 : List.dropWhile (fun x => !pyIsSpace x) (c :: cs) = [] := by
      rw [List.dropWhile_eq_nil_iff]
      intro a ha
      simp [hall a (by rw [hcons]; exact ha)]
    simp [hdw, htw, hdw2]
    exact congrArg String.mk hcons.symm
  refine ⟨hsplit, ?_⟩
  rw [hsplit] at h5
  have herr : removeLoop bin (run_list_parse stdout) = .error (unpackError 1) := by
    rw [h5]
    exact removeLoop_err bin ts us [line] h4 (by simp)
  unfold channelRun
  simp [run_remove, herr]

theorem remove_unpack_crash_on_missing_separator_witness :
    pySplit1 "broken" = ["broken"] ∧
    (channelRun "nix-channel" false
        "nixpkgs https://nixos.org/channels/nixpkgs-unstable\nbroken\n" []).result =
      .error (unpackError 1) :=
  remove_unpack_crash_on_missing_separator "nix-channel"
    "nixpkgs https://nixos.org/channels/nixpkgs-unstable\nbroken\n" "broken" []
    [["nixpkgs", "https://nixos.org/channels/nixpkgs-unstable"]] []
    (by decide) (by decide) (by decide) (by decide)

/-! The environment-installer module (`env.py`). -/

/-- The `lexpr` line of `NixEnv.make_defexpr` (`env.py` line 125):
`'{channel} = import <{channel}> {args};'` formatted with the channel name
and `args='{}'`. -/
def lexpr (channel : String) : String :=
  channel ++ " = import <" ++ channel ++ "> \x7b\x7d;"

/-- The `iexpr` line of `NixEnv.make_defexpr` (`env.py` line 127):
`'inherit ({channel}) {names};'` with the names space-joined by
`' '.join(names)`. -/
def iexpr (channel : String) (names : List String) : String :=
  "inherit (" ++ channel ++ ") " ++ String.intercalate " " names ++ ";"

/-- The loop of `NixEnv.make_defexpr` (`env.py` lines 122-128): appends one
`lexpr` and one `iexpr` per `(channel, names)` item, in iteration order. -/
def make_defexpr_blocks (packages : List (String × List String)) :
    List String × List String :=
  packages.foldl (fun acc p => (acc.1 ++ [lexpr p.1], acc.2 ++ [iexpr p.1 p.2])) ([], [])

/-- The generated expression text of `NixEnv.make_defexpr` (`env.py` lines
130-137): the dedented template `let\n  {lblock}\nin {\n  {iblock}\n}\n`
with both blocks joined by `'\n  '`. -/
def make_defexpr_content (packages : List (String × List String)) : String :=
  let b := make_defexpr_blocks packages
  "let\n  " ++ String.intercalate "\n  " b.1 ++ "\nin \x7b\n  "
    ++ String.intercalate "\n  " b.2 ++ "\n\x7d\n"

/-- The lines of a string, splitting at every `\n` (used to state which lines
the generated expression text consists of). -/
def linesOf (s : String) : List String :=
  (splitChar '\n' s.data).map (fun l => String.mk l)

/-- The simulate arguments of `NixEnv.run_install` (`env.py` line 154). In
the source, `dry_run = ('--dry-run') if self.module.check_mode else ()`: the
parenthesised `('--dry-run')` is a plain string, not a 1-tuple, and the splat
`*dry_run` in the argv list (line 156) therefore expands it character by
character, each character becoming its own argument. -/
def dryRunArgs (check_mode : Bool) : List String :=
  if check_mode then "--dry-run".data.map (fun c => String.mk [c]) else []

/-- One `nix-env` invocation: its argv and the `environ_update` mapping
passed to `run_command` (`env.py` line 159). -/
structure EnvInvocation where
  args : List String
  env_update : List (String × String)

/-- Outcome of an env-module run: `.ok changed` for `exit_json`, `.error msg`
for an abort (a `fail_json` or an uncaught exception), plus the invocations
issued. -/
structure EnvOutcome where
  result : Except String Bool
  trace : List EnvInvocation

/-- The invocation step of `NixEnv.run_install` (`env.py` lines 154-164):
argv is the binary, the (splatted) simulate arguments when in check mode,
then `-f <defexpr_path>` and `-ir`, run with `NIXPKGS_CONFIG` pointing at the
config file; afterwards `changed` is assigned `True` iff `not dry_run`,
i.e. iff `dry_run` is the empty tuple. Returns this step's `changed`
contribution and the invocation. -/
def run_install (bin : String) (check_mode : Bool)
    (config_path defexpr_path : String) : Bool × EnvInvocation :=
  let dry := dryRunArgs check_mode
  let args := [bin] ++ dry ++ ["-f", defexpr_path, "-ir"]
  (dry.isEmpty, ⟨args, [("NIXPKGS_CONFIG", config_path)]⟩)

/-- `NixEnv.run` on already-validated, well-typed parameters (`env.py` lines
104-169): `make_config` writes the config blob to a temporary file (`cfgFs`
models the file creation: it receives the written text and yields the file
name, or the text `str(e)` of the raised exception, which `fail_json` then
reports verbatim, lines 114-116); then `make_defexpr` builds and writes the
generated expression (`defFs`, lines 140-146, same failure convention); then
`run_install` invokes the binary; `result['changed']` starts `False`. -/
def envRun (bin : String) (check_mode : Bool)
    (cfgFs defFs : String → Except String String)
    (config : String) (packages : List (String × List String)) : EnvOutcome :=
  match cfgFs config with
  | .error e => ⟨.error e, []⟩
  | .ok config_path =>
    match defFs (make_defexpr_content packages) with
    | .error e => ⟨.error e, []⟩
    | .ok defexpr_path =>
      let r := run_install bin check_mode config_path defexpr_path
      ⟨.ok r.1, [r.2]⟩

/-- A file-creation action that always succeeds with a fixed name, for
concrete instantiations. -/
def okCfgFs : String → Except String String := fun _ => .ok "/tmp/tmpcfg"

/-- A second always-successful file-creation action. -/
def okDefFs : String → Except String String := fun _ => .ok "/tmp/tmpdefexpr"

/-- A file-creation action that always fails, with the message text a system
error would carry. -/
def errFs : String → Except String String := fun _ => .error "No space left on device"

lemma pair_foldl_snoc {α : Type} (f g : α → String) (l : List α)
    (a b : List String) :
    l.foldl (fun acc p => (acc.1 ++ [f p], acc.2 ++ [g p])) (a, b)
      = (a ++ l.map f, b ++ l.map g) := by
  induction l generalizing a b with
  | nil => simp
  | cons x xs ih => simp [ih, List.append_assoc]

/-- C4: per declared channel, in input order, the generated expression has
exactly one import binding and one re-export binding, the latter listing the
declared package names space-joined in input order with duplicates kept; for
`{nixpkgs: [hello]}` its lines are exactly the let/in template around
`nixpkgs = import <nixpkgs> {};` and `inherit (nixpkgs) hello;`. -/
theorem defexpr_one_binding_per_channel (packages : List (String × List String)) :
    make_defexpr_blocks packages =
      (packages.map (fun p => lexpr p.1), packages.map (fun p => iexpr p.1 p.2)) ∧
    linesOf (make_defexpr_content [("nixpkgs", ["hello"])]) =
      ["let", "  nixpkgs = import <nixpkgs> \x7b\x7d;", "in \x7b",
       "  inherit (nixpkgs) hello;", "\x7d", ""] ∧
    iexpr "nixpkgs" ["hello", "hello"] = "inherit (nixpkgs) hello hello;" := by
  refine ⟨?_, by decide, by decide⟩
  simpa using pair_foldl_snoc (fun p => lexpr p.1) (fun p => iexpr p.1 p.2) packages [] []

/-- C1 (code bug): in check mode `run_install` issues a single invocation,
but because `('--dry-run')` is a plain string whose characters are splatted
into the argv, the arguments before `-f <defexpr> -ir` are the nine
one-character strings of `--dry-run`, not one `--dry-run` flag; outside check
mode the same single invocation runs with no extra argument, as claimed. -/
theorem env_install_dry_run_splat :
    dryRunArgs true = ["-", "-", "d", "r", "y", "-", "r", "u", "n"] ∧
    envRun "nix-env" true okCfgFs okDefFs "\x7b\x7d" [("nixpkgs", ["hello"])] =
      ⟨.ok false,
        [⟨["nix-env", "-", "-", "d", "r", "y", "-", "r", "u", "n",
           "-f", "/tmp/tmpdefexpr", "-ir"],
          [("NIXPKGS_CONFIG", "/tmp/tmpcfg")]⟩]⟩ ∧
    envRun "nix-env" false okCfgFs okDefFs "\x7b\x7d" [("nixpkgs", ["hello"])] =
      ⟨.ok true,
        [⟨["nix-env", "-f", "/tmp/tmpdefexpr", "-ir"],
          [("NIXPKGS_CONFIG", "/tmp/tmpcfg")]⟩]⟩ :=
  ⟨rfl, rfl, rfl⟩

/-- C2 counterexample: at a concrete input in check mode the installer does
issue its (single) install invocation, yet reports `changed=false`; the
`changed` flag is assigned `True` only under `if not dry_run` (`env.py`
line 163), so in check mode it keeps its constructed initial value `False`
no matter what the external tool would report. -/
theorem env_check_changed_is_forced_false_cex :
    (envRun "nix-env" true okCfgFs okDefFs "\x7b\x7d" [("nixpkgs", ["hello"])]).result =
      .ok false ∧
    (envRun "nix-env" true okCfgFs okDefFs "\x7b\x7d" [("nixpkgs", ["hello"])]).trace.length = 1 :=
  ⟨rfl, rfl⟩

/-- C2 amended: in check mode the Environment Installer still invokes the
install command (exactly once), but the reported `changed` IS fixed to false
by construction: for every input on the successful path, the result is
`changed=false`. -/
theorem env_check_invokes_install_changed_false (bin config cfgPath defPath : String)
    (packages : List (String × List String)) :
    envRun bin true (fun _ => .ok cfgPath) (fun _ => .ok defPath) config packages =
      ⟨.ok false,
        [⟨[bin, "-", "-", "d", "r", "y", "-", "r", "u", "n", "-f", defPath, "-ir"],
          [("NIXPKGS_CONFIG", cfgPath)]⟩]⟩ := by
  have hdry : dryRunArgs true = ["-", "-", "d", "r", "y", "-", "r", "u", "n"] := rfl
  simp [envRun, run_install, hdry]

/-- C8: if creation of the configuration-override temporary file or of the
generated-expression temporary file fails, the module fails fatally before
any install invocation, and the failure message is exactly the text of the
underlying system error (`str(e)` passed to `fail_json`). -/
theorem env_tmpfile_error_fatal (bin config e : String) (check_mode : Bool)
    (packages : List (String × List String))
    (cfgFs defFs : String → Except String String) :
    (cfgFs config = .error e →
        envRun bin check_mode cfgFs defFs config packages = ⟨.error e, []⟩) ∧
    (∀ p, cfgFs config = .ok p →
        defFs (make_defexpr_content packages) = .error e →
        envRun bin check_mode cfgFs defFs config packages = ⟨.error e, []⟩) := by
  constructor
  · intro hc
    simp [envRun, hc]
  · intro p hc hd
    simp [envRun, hc, hd]

theorem env_tmpfile_error_fatal_witness :
    errFs "\x7b\x7d" = .error "No space left on device" ∧
    envRun "nix-env" false errFs okDefFs "\x7b\x7d" [("nixpkgs", ["hello"])] =
      ⟨.error "No space left on device", []⟩ ∧
    envRun "nix-env" false okCfgFs errFs "\x7b\x7d" [("nixpkgs", ["hello"])] =
      ⟨.error "No space left on device", []⟩ :=
  ⟨rfl,
   (env_tmpfile_error_fatal "nix-env" "\x7b\x7d" "No space left on device" false
      [("nixpkgs", ["hello"])] errFs okDefFs).1 rfl,
   (env_tmpfile_error_fatal "nix-env" "\x7b\x7d" "No space left on device" false
      [("nixpkgs", ["hello"])] okCfgFs errFs).2 "/tmp/tmpcfg" rfl rfl⟩

/-! Input validation. The two modules validate their parameters through the
host framework's `check_type_dict` / `check_type_str` / `check_type_list`
(called from `CheckTypeChannels.__call__`, `channel.py` lines 48-57, and
`CheckTypePackages.__call__`, `env.py` lines 70-81) before `run` executes
anything. Raw parameter values are modelled by `PyVal`. -/

inductive PyVal where
  | str : String → PyVal
  | int : Int → PyVal
  | list : List PyVal → PyVal
  | dict : List (PyVal × PyVal) → PyVal

mutual

/-- Python `str(value)`: a string itself, the decimal text of an int, and the
comma-joined bracketed repr of containers. Container element reprs are
modelled without Python's quote-escaping (no theorem below depends on the
repr of a container). -/
def pyToStr : PyVal → String
  | .str s => s
  | .int n => toString n
  | .list xs => "[" ++ String.intercalate ", " (pyReprList xs) ++ "]"
  | .dict es => "\x7b" ++ String.intercalate ", " (pyReprDict es) ++ "\x7d"

/-- Python `repr(value)` (quotes around strings), as used inside `str()` of a
container. -/
def pyRepr : PyVal → String
  | .str s => "\x27" ++ s ++ "\x27"
  | .int n => toString n
  | .list xs => "[" ++ String.intercalate ", " (pyReprList xs) ++ "]"
  | .dict es => "\x7b" ++ String.intercalate ", " (pyReprDict es) ++ "\x7d"

def pyReprList : List PyVal → List String
  | [] => []
  | v :: vs => pyRepr v :: pyReprList vs

def pyReprDict : List (PyVal × PyVal) → List String
  | [] => []
  | (k, v) :: ps => (pyRepr k ++ ": " ++ pyRepr v) :: pyReprDict ps

end

/-- The host library's `check_type_dict`: a dict is returned unchanged, and a
value that is neither a dict nor a string raises `TypeError`. For a string
the library attempts JSON or `key=value` parsing; that parsing branch is
outside this model, is mapped to a distinctly-labelled error, and no theorem
below depends on which strings it accepts. -/
def check_type_dict : PyVal → Except String (List (PyVal × PyVal))
  | .dict es => .ok es
  | .str _ => .error "string-to-dict parsing branch (JSON or key=value) not modelled"
  | .int _ => .error "<class \x27int\x27> cannot be converted to a dict"
  | .list _ => .error "<class \x27list\x27> cannot be converted to a dict"

/-- The host library's `check_type_str` with its default
`allow_conversion=True`, as called by both modules: a string passes through
and every other value is converted with `str()`; it never raises. -/
def check_type_str (v : PyVal) : PyVal :=
  match v with
  | .str s => .str s
  | v => .str (pyToStr v)

/-- The host library's `check_type_list`: a list is returned unchanged, a
string is comma-split, an int becomes a one-element list of its text, and
anything else raises `TypeError`. -/
def check_type_list : PyVal → Except String (List PyVal)
  | .list xs => .ok xs
  | .str s => .ok ((splitChar ',' s.data).map (fun l => PyVal.str (String.mk l)))
  | .int n => .ok [.str (toString n)]
  | .dict _ => .error "<class \x27dict\x27> cannot be converted to a list"

/-- `CheckTypeChannels.__call__` (`channel.py` lines 52-57): converts the raw
value to a dict, runs `check_type_str` over every name and URL (binding the
results to loop-local variables that are then discarded), and returns the
original dict. With `allow_conversion=True` the per-entry checks can never
raise, so any dict passes unchanged. -/
def CheckTypeChannels (v : PyVal) : Except String (List (PyVal × PyVal)) :=
  match check_type_dict v with
  | .error e => .error e
  | .ok channels =>
    let _ := channels.map (fun p => (check_type_str p.1, check_type_str p.2))
    .ok channels

/-- The per-entry loop of `CheckTypePackages.__call__` (`env.py` lines
76-80): `check_type_str` on the channel (never raises), `check_type_list` on
the names (may raise), `check_type_str` on each name (never raises); the
converted values are bound to loop-locals and discarded. -/
def packagesLoop : List (PyVal × PyVal) → Except String Unit
  | [] => .ok ()
  | p :: ps =>
    let _ := check_type_str p.1
    match check_type_list p.2 with
    | .error e => .error e
    | .ok names =>
      let _ := names.map check_type_str
      packagesLoop ps

/-- `CheckTypePackages.__call__` (`env.py` lines 74-81): converts the raw
value to a dict, runs the per-entry loop, and returns the original dict. -/
def CheckTypePackages (v : PyVal) : Except String (List (PyVal × PyVal)) :=
  match check_type_dict v with
  | .error e => .error e
  | .ok packages =>
    match packagesLoop packages with
    | .error e => .error e
    | .ok _ => .ok packages

/-- The Python type name of a value, as it appears in error messages. -/
def pyTypeName : PyVal → String
  | .str _ => "str"
  | .int _ => "int"
  | .list _ => "list"
  | .dict _ => "dict"

/-- Python `"' '".join(args)` over an argv list whose elements may be raw
parameter values (the log line of `NixChannel.run_add`, `channel.py` line
115, runs before `run_command`): `join` walks the items in order and raises
`TypeError` at the first non-string, naming its position and type. On
success the items are exactly the argv strings. -/
def joinStrArgsFrom (i : Nat) : List PyVal → Except String (List String)
  | [] => .ok []
  | .str t :: xs =>
    match joinStrArgsFrom (i + 1) xs with
    | .error e => .error e
    | .ok ts => .ok (t :: ts)
  | v :: _ =>
    .error ("TypeError: sequence item " ++ toString i ++ ": expected str instance, "
      ++ pyTypeName v ++ " found")

/-- The `for name, url in channels` loop of `NixChannel.run_add`
(`channel.py` lines 113-119) over the raw declared items: per item the argv
`[bin, '--add', url, name]` is built and logged; the log's `join` raises an
uncaught `TypeError` if `url` or `name` is not a string, before
`run_command` runs for that item. -/
def addLoop (bin : String) : List (PyVal × PyVal) → Except String (List Invocation)
  | [] => .ok []
  | (name, url) :: ps =>
    match joinStrArgsFrom 0 [.str bin, .str "--add", url, name] with
    | .error e => .error e
    | .ok args =>
      match addLoop bin ps with
      | .error e => .error e
      | .ok invs => .ok (args :: invs)

/-- `NixChannel.run_add` (`channel.py` lines 104-119) on the raw declared
items (the validated parameter keeps its original values): in check mode it
returns before touching `changed` or running anything; otherwise it sets
`changed` and runs the add loop, which dies on the first non-string name or
URL. -/
def run_add_raw (bin : String) (check_mode : Bool)
    (channels : List (PyVal × PyVal)) : Except String (Bool × List Invocation) :=
  if check_mode then .ok (false, [])
  else
    match addLoop bin channels with
    | .error e => .error e
    | .ok invs => .ok (true, invs)

/-- The full channel module (`channel.py` lines 60-144): `AnsibleModule`
validation of the `channels` parameter at construction time, then
`NixChannel.run`. A validation `TypeError` is reported by the framework
before any external command, so the trace is empty. On the ok path the
validated parameter still carries the original (possibly non-string) values,
and the run dies at the add step's log `join` on the first non-string name
or URL, after the list (and remove) invocations have already been issued. -/
def channelModule (raw : PyVal) (bin : String) (check_mode : Bool)
    (stdout : String) : ChanOutcome :=
  match CheckTypeChannels raw with
  | .error e => ⟨.error e, []⟩
  | .ok entries =>
    let observed := run_list_parse stdout
    match run_remove bin check_mode observed with
    | .error e => ⟨.error e, [[bin, "--list"]]⟩
    | .ok (ch1, removeInvs) =>
      match run_add_raw bin check_mode entries with
      | .error e => ⟨.error e, [[bin, "--list"]] ++ removeInvs⟩
      | .ok (ch2, addInvs) =>
        let (ch3, updateInvs) := run_update bin check_mode
        ⟨.ok (ch1 || ch2 || ch3), [[bin, "--list"]] ++ removeInvs ++ addInvs ++ updateInvs⟩

/-- The items of an iterable, each required to be a string (the elements
`str.join` consumes); a non-string item models the `TypeError` that `join`
raises. -/
def strItems : List PyVal → Except String (List String)
  | [] => .ok []
  | .str t :: xs =>
    match strItems xs with
    | .error e => .error e
    | .ok ts => .ok (t :: ts)
  | _ :: _ => .error "TypeError: sequence item: expected str instance"

/-- Python `' '.join(names)` seen as producing the list of joined items
(`env.py` line 127) from the raw `names` value: a list joins its items,
which must all be strings; a string is iterated character by character; a
dict is iterated over its keys; an int is not iterable. The `TypeError`
cases model the uncaught exception `join` raises. -/
def pyStrSeq : PyVal → Except String (List String)
  | .list xs => strItems xs
  | .str s => .ok (s.data.map (fun c => String.mk [c]))
  | .dict es => strItems (es.map (fun p => p.1))
  | .int _ => .error "TypeError: can only join an iterable"

/-- The `(channel, names)` items of the raw `packages` dict as consumed by
`NixEnv.make_defexpr` (`env.py` lines 124-128): the channel name goes through
`str()` (via `str.format`), the names through `' '.join`; the first
non-joinable names value raises. -/
def typedEntries : List (PyVal × PyVal) → Except String (List (String × List String))
  | [] => .ok []
  | p :: ps =>
    match pyStrSeq p.2 with
    | .error e => .error e
    | .ok ns =>
      match typedEntries ps with
      | .error e => .error e
      | .ok rest => .ok ((pyToStr p.1, ns) :: rest)

/-- The full env module (`env.py` lines 84-169): `AnsibleModule` validation
of the `packages` parameter at construction time (a validation `TypeError`
precedes any external command: empty trace), then `NixEnv.run`: the config
file is written first, then the expression content is built from the raw
mapping (an uncaught `join`/`format` `TypeError` also precedes the install
invocation) and written, then the single install invocation runs. -/
def envModule (raw : PyVal) (config : String) (bin : String) (check_mode : Bool)
    (cfgFs defFs : String → Except String String) : EnvOutcome :=
  match CheckTypePackages raw with
  | .error e => ⟨.error e, []⟩
  | .ok entries =>
    match cfgFs config with
    | .error e => ⟨.error e, []⟩
    | .ok _ =>
      match typedEntries entries with
      | .error e => ⟨.error e, []⟩
      | .ok typed => envRun bin check_mode cfgFs defFs config typed

/-- C7 counterexample: the declared mapping `{nixpkgs: 42}` has a number
where a string is required (as channel URL, resp. as package-name list), yet
both validators accept it and return the original mapping unchanged
(`check_type_str` converts with `allow_conversion=True` instead of raising,
and the conversion is discarded; `check_type_list` wraps the int). The
channel module then invokes the external list command and only afterwards
dies with an uncaught `TypeError` at the add step's log `join` — so this
malformed input neither fails with a validation error nor fails before an
external command is invoked. -/
theorem validation_accepts_number_cex :
    CheckTypeChannels (.dict [(.str "nixpkgs", .int 42)]) =
      .ok [(.str "nixpkgs", .int 42)] ∧
    CheckTypePackages (.dict [(.str "nixpkgs", .int 42)]) =
      .ok [(.str "nixpkgs", .int 42)] ∧
    channelModule (.dict [(.str "nixpkgs", .int 42)]) "nix-channel" false "" =
      ⟨.error "TypeError: sequence item 2: expected str instance, int found",
        [["nix-channel", "--list"]]⟩ :=
  ⟨rfl, rfl, rfl⟩

/-- C7 amended: when validation of the declared input does raise (e.g. the
top-level value is not a mapping), either module fails before any external
command is invoked (empty trace); but a non-string scalar where a string is
required is coerced by the validator rather than rejected, and any dict
passes the channels validator unchanged. -/
theorem validation_error_precedes_commands (raw : PyVal)
    (bin stdout config : String) (check_mode : Bool)
    (cfgFs defFs : String → Except String String) :
    (∀ e, CheckTypeChannels raw = .error e →
        channelModule raw bin check_mode stdout = ⟨.error e, []⟩) ∧
    (∀ e, CheckTypePackages raw = .error e →
        envModule raw config bin check_mode cfgFs defFs = ⟨.error e, []⟩) ∧
    (∀ n : Int, check_type_dict (.int n) =
        .error "<class \x27int\x27> cannot be converted to a dict") ∧
    (∀ entries, CheckTypeChannels (.dict entries) = .ok entries) ∧
    (∀ v, ∃ s, check_type_str v = .str s) := by
  refine ⟨?_, ?_, fun n => rfl, fun entries => rfl, ?_⟩
  · intro e he
    simp [channelModule, he]
  · intro e he
    simp [envModule, he]
  · intro v
    cases v with
    | str s => exact ⟨s, rfl⟩
    | int n => exact ⟨_, rfl⟩
    | list xs => exact ⟨_, rfl⟩
    | dict es => exact ⟨_, rfl⟩

theorem validation_error_precedes_commands_witness :
    CheckTypeChannels (.int 3) =
      .error "<class \x27int\x27> cannot be converted to a dict" ∧
    channelModule (.int 3) "nix-channel" false "" =
      ⟨.error "<class \x27int\x27> cannot be converted to a dict", []⟩ ∧
    CheckTypePackages (.list []) =
      .error "<class \x27list\x27> cannot be converted to a dict" ∧
    envModule (.list []) "\x7b\x7d" "nix-env" false okCfgFs okDefFs =
      ⟨.error "<class \x27list\x27> cannot be converted to a dict", []⟩ :=
  ⟨rfl,
   (validation_error_precedes_commands (.int 3) "nix-channel" "" "\x7b\x7d" false
      okCfgFs okDefFs).1 _ rfl,
   rfl,
   (validation_error_precedes_commands (.list []) "nix-env" "" "\x7b\x7d" false
      okCfgFs okDefFs).2.1 _ rfl⟩

end AnsibleNix
